import Mathlib

/-!
Verification development for the HighPass trust-verifying reverse proxy.

The definitions below are a shallow embedding of the TypeScript sources:
  - src/lib/openseal-verifier/index.ts  (OpensealVerifier)
  - src/services/ProxyService.ts        (ProxyService.forwardRequest)
  - the domain resolver middleware      (domainResolver)
  - src/routes/services.ts              (test-connection and verify handlers)

Cryptographic primitives (BLAKE3, Ed25519 verification) are modelled as
abstract function parameters: the theorems hold for every choice of hash
and signature-verification function, which makes them statements about the
control flow and data flow of the code, not about the primitives.
JavaScript strings are modelled as Lean strings (sequences of Unicode code
points); JS string length (UTF-16 code units) and UTF-8 byte encoding are
modelled explicitly.
-/

namespace HighPass

/-! ## Bytes, UTF-8, hex (modelling @noble/hashes utils and TextEncoder) -/

abbrev Bytes := List Nat

/-- UTF-8 encoding of one Unicode code point (TextEncoder semantics). -/
def utf8Char (c : Char) : Bytes :=
  let n := c.toNat
  if n < 0x80 then [n]
  else if n < 0x800 then [0xC0 + n / 0x40, 0x80 + n % 0x40]
  else if n < 0x10000 then
    [0xE0 + n / 0x1000, 0x80 + (n / 0x40) % 0x40, 0x80 + n % 0x40]
  else
    [0xF0 + n / 0x40000, 0x80 + (n / 0x1000) % 0x40, 0x80 + (n / 0x40) % 0x40, 0x80 + n % 0x40]

/-- `new TextEncoder().encode(s)`. -/
def utf8Bytes (s : String) : Bytes :=
  (s.data.map utf8Char).flatten

/-- Value of one hex digit; `@noble/hashes` accepts 0-9, a-f, A-F. -/
def hexDigitVal (c : Char) : Option Nat :=
  if ('0' ≤ c && c ≤ '9') then some (c.toNat - 48)
  else if ('a' ≤ c && c ≤ 'f') then some (c.toNat - 87)
  else if ('A' ≤ c && c ≤ 'F') then some (c.toNat - 55)
  else none

/-- Decode a list of hex characters two at a time. -/
def hexPairs : List Char → Except String Bytes
  | [] => .ok []
  | [_] => .error "hex string of odd length"
  | c1 :: c2 :: rest =>
    match hexDigitVal c1, hexDigitVal c2 with
    | some h1, some h2 => (hexPairs rest).map (fun bs => (16 * h1 + h2) :: bs)
    | _, _ => .error "hex string expected, got non-hex character"

/-- `hexToBytes` from @noble/hashes: throws on odd length or non-hex chars. -/
def hexToBytes (s : String) : Except String Bytes :=
  if s.length % 2 != 0 then .error "hex string of odd length"
  else hexPairs s.data

/-- Lowercase hex digit for a value below 16. -/
def hexDigitChar (n : Nat) : Char :=
  if n < 10 then Char.ofNat (48 + n) else Char.ofNat (87 + n)

/-- One byte as two lowercase hex digits. -/
def byteToHex (b : Nat) : String :=
  String.mk [hexDigitChar (b / 16 % 16), hexDigitChar (b % 16)]

/-- `bytesToHex` from @noble/hashes (lowercase). -/
def bytesToHex (bs : Bytes) : String :=
  String.join (bs.map byteToHex)

/-! ## JSON value model (for JSON.parse results and JSON.stringify) -/

inductive JValue where
  | jstr : String → JValue
  | jnum : Int → JValue
  | jbool : Bool → JValue
  | jnull : JValue
  | jarr : List JValue → JValue
  | jobj : List (String × JValue) → JValue

/-- JavaScript truthiness on parsed JSON values: "" , 0, false, null are
falsy; every object and array is truthy. -/
def jFalsy : JValue → Bool
  | .jstr s => s.isEmpty
  | .jnum n => n == 0
  | .jbool b => !b
  | .jnull => true
  | .jarr _ => false
  | .jobj _ => false

def jTruthy (v : JValue) : Bool := !jFalsy v

/-- Property access `v[k]`: only objects have fields; absent field is
`undefined`, modelled as `none`. -/
def jGetField : JValue → String → Option JValue
  | .jobj fields, k => (fields.find? (fun p => p.1 == k)).map Prod.snd
  | _, _ => none

/-- JSON string escaping as done by JSON.stringify. -/
def escapeJsonChar (c : Char) : String :=
  if c = Char.ofNat 34 then "\\\""
  else if c = Char.ofNat 92 then "\\\\"
  else if c = Char.ofNat 10 then "\\n"
  else if c = Char.ofNat 13 then "\\r"
  else if c = Char.ofNat 9 then "\\t"
  else if c = Char.ofNat 8 then "\\b"
  else if c = Char.ofNat 12 then "\\f"
  else if c.toNat < 32 then
    "\\u00" ++ String.mk [hexDigitChar (c.toNat / 16), hexDigitChar (c.toNat % 16)]
  else String.mk [c]

def escapeJsonString (s : String) : String :=
  String.join (s.data.map escapeJsonChar)

mutual

/-- `JSON.stringify` on the JSON value model. -/
def stringify : JValue → String
  | .jstr s => "\"" ++ escapeJsonString s ++ "\""
  | .jnum n => toString n
  | .jbool b => if b then "true" else "false"
  | .jnull => "null"
  | .jarr xs => "[" ++ stringifyList xs ++ "]"
  | .jobj fields => "\x7b" ++ stringifyFields fields ++ "\x7d"

def stringifyList : List JValue → String
  | [] => ""
  | [x] => stringify x
  | x :: y :: rest => stringify x ++ "," ++ stringifyList (y :: rest)

def stringifyFields : List (String × JValue) → String
  | [] => ""
  | [(k, v)] => "\"" ++ escapeJsonString k ++ "\":" ++ stringify v
  | (k, v) :: q :: rest =>
    "\"" ++ escapeJsonString k ++ "\":" ++ stringify v ++ "," ++ stringifyFields (q :: rest)

end

/-! ## OpenSeal verifier (src/lib/openseal-verifier/index.ts) -/

/-- The four openseal metadata fields of a response envelope.
An absent field and an empty-string field behave identically in the code
(both are JS-falsy), so fields are plain strings with "" for missing. -/
structure OpensealMeta where
  signature : String
  pub_key : String
  a_hash : String
  b_hash : String
deriving DecidableEq

/-- The OpenSealResponse envelope; `result` is `none` when the field is
absent (undefined), `openseal` is `none` when the object is absent. -/
structure OpenSealResponse where
  result : Option JValue
  openseal : Option OpensealMeta

structure VerificationResult where
  valid : Bool
  signatureVerified : Bool
  identityVerified : Bool
  message : String
deriving DecidableEq

/-- `OpensealVerifier.computeAHash`:
`A = Blake3("OPENSEAL_BLINDED_IDENTITY" || RootHashBytes || WaxBytes)`,
hex-encoded.  `hexToBytes` raises on malformed root-hash hex, modelled as
`Except.error`.  The streaming `hasher.update` calls are modelled as the
hash of the concatenation of the three byte strings. -/
def computeAHash (h : Bytes → Bytes) (rootHashHex wax : String) : Except String String :=
  (hexToBytes rootHashHex).map (fun rootHashBytes =>
    bytesToHex (h (utf8Bytes "OPENSEAL_BLINDED_IDENTITY" ++ rootHashBytes ++ utf8Bytes wax)))

/-- Result serialization in `verifyNative`: identity on strings, otherwise
JSON stringification. -/
def serializeResult : JValue → String
  | .jstr s => s
  | v => stringify v

/-- The body of `OpensealVerifier.verifyNative` before its surrounding
try/catch; a thrown exception is an `Except.error`.  `h` is BLAKE3,
`edv sig msg pub` is `ed.verifyAsync`. -/
def verifyNativeCore (h : Bytes → Bytes) (edv : Bytes → Bytes → Bytes → Bool)
    (response : OpenSealResponse) (wax : String) (expectedRootHash : Option String) :
    Except String VerificationResult :=
  match response.openseal, response.result with
  | some os, some r =>
    if jFalsy r then .ok ⟨false, false, false, "Missing openseal or result fields"⟩
    else if os.signature.isEmpty || os.pub_key.isEmpty || os.a_hash.isEmpty || os.b_hash.isEmpty then
      .ok ⟨false, false, false, "Incomplete openseal metadata"⟩
    else
      match hexToBytes os.signature, hexToBytes os.pub_key with
      | .error e, _ => .error e
      | .ok _, .error e => .error e
      | .ok signatureBytes, .ok pubKeyBytes =>
        if edv signatureBytes
            (utf8Bytes (wax ++ os.a_hash ++ os.b_hash ++ bytesToHex (h (utf8Bytes (serializeResult r)))))
            pubKeyBytes = false then
          .ok ⟨false, false, false, "Signature verification failed"⟩
        else
          match expectedRootHash with
          | some rh =>
            if rh.isEmpty then .ok ⟨true, true, true, "✅ SEAL VALID (Native)"⟩
            else
              match computeAHash h rh wax with
              | .error e => .error e
              | .ok calculatedAHash =>
                if calculatedAHash = os.a_hash then
                  .ok ⟨true, true, true, "✅ SEAL VALID (Native)"⟩
                else
                  .ok ⟨false, true, false,
                    "Identity Mismatch: Code execution identity does not match expected root hash (Native)."⟩
          | none => .ok ⟨true, true, true, "✅ SEAL VALID (Native)"⟩
  | _, _ => .ok ⟨false, false, false, "Missing openseal or result fields"⟩

/-- `OpensealVerifier.verifyNative`: the try/catch wrapper mapping any
internal exception to an invalid VerificationResult. -/
def verifyNative (h : Bytes → Bytes) (edv : Bytes → Bytes → Bytes → Bool)
    (response : OpenSealResponse) (wax : String) (expectedRootHash : Option String) :
    VerificationResult :=
  match verifyNativeCore h edv response wax expectedRootHash with
  | .ok vr => vr
  | .error e => ⟨false, false, false, "Native Verification Error: " ++ e⟩

/-! ## String helpers

List-based equivalents of the JavaScript string operations the sources use
(`startsWith`, `endsWith`, `toLowerCase`, `split`, `slice`), chosen so that
every definition evaluates by kernel reduction. -/

def strStartsWith (s pre : String) : Bool :=
  pre.data.isPrefixOf s.data

def strEndsWith (s suf : String) : Bool :=
  suf.data.isSuffixOf s.data

def strToLower (s : String) : String :=
  String.mk (s.data.map Char.toLower)

def splitOnChar (sep : Char) : List Char → List (List Char)
  | [] => [[]]
  | c :: rest =>
    if c = sep then [] :: splitOnChar sep rest
    else
      match splitOnChar sep rest with
      | [] => [[c]]
      | g :: gs => (c :: g) :: gs

def strDrop (s : String) (n : Nat) : String :=
  String.mk (s.data.drop n)

/-! ## ProxyService.forwardRequest (src/services/ProxyService.ts) -/

/-- The fixed header allow-list `ProxyService.SAFE_HEADERS`. -/
def SAFE_HEADERS : List String :=
  ["accept", "accept-encoding", "accept-language", "content-type",
   "content-length", "user-agent", "cache-control"]

/-- The blocked-name test of the header filtering loop, on the lowercased
header name. -/
def blockedHeaderName (lk : String) : Bool :=
  strStartsWith lk "x-forwarded" || strStartsWith lk "x-real-ip" ||
  strStartsWith lk "x-original" || strStartsWith lk "x-rewrite" ||
  lk == "host" || lk == "connection"

/-- `forwardHeaders[key] = value` on a JS object modelled as an ordered
association list: overwrite an existing exact key, otherwise append. -/
def setHeader (hs : List (String × String)) (k v : String) : List (String × String) :=
  if hs.any (fun p => p.1 == k) then
    hs.map (fun p => if p.1 == k then (k, v) else p)
  else hs ++ [(k, v)]

/-- One iteration of the `Object.keys(req.headers).forEach` filtering loop. -/
def filterStep (acc : List (String × String)) (kv : String × String) : List (String × String) :=
  if blockedHeaderName (strToLower kv.1) then acc
  else if SAFE_HEADERS.contains (strToLower kv.1) then setHeader acc kv.1 kv.2
  else acc

/-- The header-filtering loop of `forwardRequest`. -/
def filterHeaders (inbound : List (String × String)) : List (String × String) :=
  inbound.foldl filterStep []

/-- The full outbound header set built by `forwardRequest`: filtered inbound
headers, then the gateway metadata (`x-forwarded-by`, `x-service-name`,
`x-highstation-time`), then the optional HMAC signature header and the
optional OpenSeal wax header. -/
def buildForwardHeaders (inbound : List (String × String)) (serviceName timestamp : String)
    (signatureHeader waxHeader : Option String) : List (String × String) :=
  let hs := filterHeaders inbound
  let hs := setHeader hs "x-forwarded-by" "highstation"
  let hs := setHeader hs "x-service-name" serviceName
  let hs := setHeader hs "x-highstation-time" timestamp
  let hs := match signatureHeader with
    | some s => setHeader hs "x-highstation-signature" s
    | none => hs
  match waxHeader with
  | some w => setHeader hs "X-OpenSeal-Wax" w
  | none => hs

/-- JavaScript `string.length`: the number of UTF-16 code units. -/
def jsLength (s : String) : Nat :=
  (s.data.map (fun c => if c.toNat < 0x10000 then 1 else 2)).sum

structure Telemetry where
  latencyMs : Nat
  responseSizeBytes : Nat
  contentType : String
  integrityCheck : Bool
deriving DecidableEq

/-- `ProxyResult` plus the optionally attached `openseal` metadata
`(verified, message)`. -/
structure ProxyResultM where
  status : Nat
  data : JValue
  telemetry : Telemetry
  openseal : Option (Bool × String)

/-- Case A detection: `parsedBody && parsedBody.openseal && parsedBody.result
!== undefined` (body-wrapper form). -/
def isBodyWrapper (pb : JValue) : Bool :=
  jTruthy pb &&
  (match jGetField pb "openseal" with
   | some osv => jTruthy osv
   | none => false) &&
  (jGetField pb "result").isSome

/-- The condition `opensealRootHash && wax` guarding every verification
attempt: both strings present and JS-truthy. -/
def rootWaxPresent (root wax : Option String) : Option (String × String) :=
  match root, wax with
  | some rh, some w => if rh.isEmpty || w.isEmpty then none else some (rh, w)
  | _, _ => none

/-- Response interpretation and result assembly of
`ProxyService.forwardRequest` after the upstream call returned.
`parse` is `JSON.parse` (an exception is `Except.error`); `osVerify` is
`OpensealVerifier.verify` applied to the envelope as a JSON value.
Returns the `ProxyResult` (with `openseal` attached iff a root hash is
configured), faithful to the three interpretation cases of the source. -/
def forwardResult (parse : String → Except String JValue)
    (osVerify : JValue → String → Option String → VerificationResult)
    (status : Nat) (responseText : String)
    (sealHeader contentTypeHeader : Option String)
    (opensealRootHash wax : Option String) (latencyMs : Nat) : ProxyResultM :=
  let verdict : JValue × Bool × Bool × String :=
    match parse responseText with
    | .ok parsedBody =>
      if isBodyWrapper parsedBody then
        -- Case A: body wrapper; unwrap parsedBody.result, verify whole body
        let vm : Bool × String :=
          match rootWaxPresent opensealRootHash wax with
          | some (rh, w) =>
            let vr := osVerify parsedBody w (some rh)
            (vr.valid, vr.message)
          | none => (false, "")
        match jGetField parsedBody "result" with
        | some r => (r, true, vm)
        | none => (parsedBody, true, vm)
      else
        -- Case B: plain JSON; header-based seal if configured
        let vm : Bool × String :=
          match rootWaxPresent opensealRootHash wax with
          | some (rh, w) =>
            match sealHeader with
            | some sealStr =>
              match parse sealStr with
              | .ok sealJson =>
                let vr := osVerify (JValue.jobj [("result", parsedBody), ("openseal", sealJson)]) w (some rh)
                (vr.valid, vr.message)
              | .error e => (false, "Header Parse Error: " ++ e)
            | none => (false, "Missing Seal (Header/Body)")
          | none => (false, "")
        (parsedBody, true, vm)
    | .error _ =>
      -- Case C: non-JSON body, wrapped as { message: responseText }
      let vm : Bool × String :=
        match rootWaxPresent opensealRootHash wax with
        | some (rh, w) =>
          match sealHeader with
          | some sealStr =>
            match parse sealStr with
            | .ok sealJson =>
              let vr := osVerify (JValue.jobj [("result", JValue.jstr responseText), ("openseal", sealJson)]) w (some rh)
              (vr.valid, vr.message)
            | .error e => (false, "Header Parse Error: " ++ e)
          | none => (false, "Integrity Compromised: Non-JSON response without Seal header")
        | none => (false, "")
      (JValue.jobj [("message", JValue.jstr responseText)], false, vm)
  { status := status
    data := verdict.1
    telemetry :=
      { latencyMs := latencyMs
        responseSizeBytes := jsLength responseText
        contentType := contentTypeHeader.getD "unknown"
        integrityCheck := verdict.2.1 }
    openseal :=
      match opensealRootHash with
      | some rh => if rh.isEmpty then none else some (verdict.2.2.1, verdict.2.2.2)
      | none => none }

/-! ## Domain resolver middleware -/

/-- The columns of a `services` row the resolver reads. -/
structure Service where
  slug : String
  custom_domain : Option String
  status : String
deriving DecidableEq

/-- `SELECT * FROM services WHERE custom_domain = $1 AND status = 'verified'
LIMIT 1`. -/
def queryCustomDomain (reg : List Service) (hostname : String) : Option Service :=
  reg.find? (fun s => s.custom_domain == some hostname && s.status == "verified")

/-- `SELECT * FROM services WHERE slug = $1 AND status = 'verified' LIMIT 1`. -/
def queryVerifiedSlug (reg : List Service) (slug : String) : Option Service :=
  reg.find? (fun s => s.slug == slug && s.status == "verified")

inductive ResolveOutcome where
  | passThrough : ResolveOutcome
  | resolved : Service → String → Option String → ResolveOutcome
deriving DecidableEq

/-- `host.split(':')[0]`. -/
def hostToHostname (host : String) : String :=
  String.mk (((splitOnChar (Char.ofNat 58) host.data).headD []))

def isInternalPath (path : String) : Bool :=
  strStartsWith path "/api" || strStartsWith path "/mcp" ||
  strStartsWith path "/health" || strStartsWith path "/debug"

/-- The regex match `^\/gatekeeper\/([^\/]+)`: the captured slug, or `none`
when the path does not match. -/
def legacySlug (path : String) : Option String :=
  if strStartsWith path "/gatekeeper/" then
    let slug := String.mk ((path.data.drop 12).takeWhile (fun c => c ≠ '/'))
    if slug.isEmpty then none else some slug
  else none

/-- Substring containment, JS `String.prototype.includes`. -/
def strContainsAux (pat : List Char) : List Char → Bool
  | [] => pat.isEmpty
  | c :: tl => List.isPrefixOf pat (c :: tl) || strContainsAux pat tl

def strContains (s pat : String) : Bool :=
  strContainsAux pat.data s.data

/-- The subdomain branch (Priority 2) of `domainResolver`. -/
def subdomainLookup (reg : List Service) (hostname : String) : Option Service :=
  let parts := (splitOnChar (Char.ofNat 46) hostname.data).map String.mk
  if parts.length ≥ 2 then
    let subdomain := parts.headD ""
    let isHighStationDomain :=
      strEndsWith hostname ".highstation.net" || strEndsWith hostname ".highstation.localhost"
    if isHighStationDomain && subdomain != "www" then queryVerifiedSlug reg subdomain
    else none
  else none

/-- The `domainResolver` middleware: internal-path skip, then custom domain,
then managed subdomain, then the legacy `/gatekeeper/<slug>` path (with its
`resource` / `/info` exclusions and prefix stripping), else pass through. -/
def domainResolver (reg : List Service) (host path : String) : ResolveOutcome :=
  if isInternalPath path then .passThrough
  else
    let hostname := hostToHostname host
    match queryCustomDomain reg hostname with
    | some svc => .resolved svc "custom_domain" none
    | none =>
      match subdomainLookup reg hostname with
      | some svc => .resolved svc "subdomain" none
      | none =>
        match legacySlug path with
        | some slug =>
          if slug == "resource" || strContains path "/info" then .passThrough
          else
            match queryVerifiedSlug reg slug with
            | some svc =>
              let stripped := strDrop path (12 + slug.length)
              .resolved svc "legacy_path" (some (if stripped.isEmpty then "/" else stripped))
            | none => .passThrough
        | none => .passThrough

/-! ## Outbound probe and ownership-verification calls
(src/routes/services.ts, test-connection and verify handlers) -/

structure UrlParts where
  protocol : String
  hostname : String
  port : String
  pathname : String
deriving DecidableEq

/-- One outbound HTTP request as actually dialed: the network host the
connection goes to, and the headers set on the fetch call. -/
structure OutboundRequest where
  dialedHost : String
  port : String
  path : String
  headers : List (String × String)
deriving DecidableEq

/-- `[...new Set(xs)]`: de-duplicate preserving first-occurrence order. -/
def dedupKeepOrder (xs : List String) : List String :=
  xs.foldl (fun acc x => if acc.contains x then acc else acc ++ [x]) []

/-- The probe requests issued by POST /api/services/utils/test-connection:
candidate paths in priority order, each fetched against the original
hostname (the resolved, blocklist-checked IP is *not* used for the
connection) with only Accept and User-Agent headers — no Host override.
Query strings of the original URL are not modelled. -/
def testConnectionProbeRequests (u : UrlParts) (testPath : Option String) : List OutboundRequest :=
  let endpoints :=
    ["/.openseal/identity"]
    ++ (match testPath with
        | some tp => [if strStartsWith tp "/" then tp else "/" ++ tp]
        | none => [])
    ++ [u.pathname, "/health", "/api/health"]
  (dedupKeepOrder endpoints).map (fun p =>
    { dialedHost := u.hostname
      port := u.port
      path := p
      headers := [("Accept", "application/json"), ("User-Agent", "highstation-probe/1.0")] })

/-- The single request issued by POST /api/services/:id/verify: dialed at
the pinned resolved IP, with the original hostname preserved in an explicit
Host header. -/
def domainVerifyRequest (u : UrlParts) (resolvedIP : String) : OutboundRequest :=
  { dialedHost := resolvedIP
    port := u.port
    path := "/.well-known/x402-verify.txt"
    headers := [("User-Agent", "highstation-bot/1.0"), ("Host", u.hostname)] }

/-! ## Theorems about the OpenSeal verifier -/

/-- C1: for every envelope containing a (truthy) result and all four
openseal fields, if the Ed25519 signature verifies under pub_key over the
byte concatenation nonce || a_hash || b_hash || hex(BLAKE3(serialize(result)))
— serialize being the identity on string results and JSON stringification
otherwise — and a_hash equals the recomputed blinded hash for
(expectedRootHash, nonce), then verifyNative returns valid=true with
signatureVerified=true and identityVerified=true. -/
theorem c1_verifyNative_valid_on_correct_seal
    (h : Bytes → Bytes) (edv : Bytes → Bytes → Bytes → Bool)
    (response : OpenSealResponse) (os : OpensealMeta) (r : JValue)
    (wax rh : String) (sigBytes pubBytes : Bytes)
    (hos : response.openseal = some os)
    (hres : response.result = some r)
    (hrt : jFalsy r = false)
    (hsig : os.signature.isEmpty = false)
    (hpk : os.pub_key.isEmpty = false)
    (hah : os.a_hash.isEmpty = false)
    (hbh : os.b_hash.isEmpty = false)
    (hdecS : hexToBytes os.signature = .ok sigBytes)
    (hdecP : hexToBytes os.pub_key = .ok pubBytes)
    (hverify : edv sigBytes
        (utf8Bytes (wax ++ os.a_hash ++ os.b_hash ++ bytesToHex (h (utf8Bytes (serializeResult r)))))
        pubBytes = true)
    (hrh : rh.isEmpty = false)
    (hmatch : computeAHash h rh wax = .ok os.a_hash) :
    verifyNative h edv response wax (some rh) =
      ⟨true, true, true, "✅ SEAL VALID (Native)"⟩ := by
  unfold verifyNative verifyNativeCore
  rw [hos, hres]
  simp [hrt, hsig, hpk, hah, hbh, hdecS, hdecP, hverify, hrh, hmatch]

/-- Witness for C1 at a concrete envelope, with the hash instantiated to a
constant function and the signature scheme to constant acceptance. -/
theorem c1_verifyNative_valid_on_correct_seal_witness :
    verifyNative (fun _ => [0]) (fun _ _ _ => true)
      ⟨some (JValue.jstr "x"), some ⟨"aa", "bb", "00", "ee"⟩⟩ "w" (some "cd")
      = ⟨true, true, true, "✅ SEAL VALID (Native)"⟩ :=
  c1_verifyNative_valid_on_correct_seal (fun _ => [0]) (fun _ _ _ => true)
    ⟨some (JValue.jstr "x"), some ⟨"aa", "bb", "00", "ee"⟩⟩ ⟨"aa", "bb", "00", "ee"⟩
    (JValue.jstr "x") "w" "cd" [170] [187]
    rfl rfl rfl rfl rfl rfl rfl rfl rfl rfl rfl rfl

/-- C2: for every envelope whose signature verifies but whose a_hash differs
from the recomputed blinded identity hash, verifyNative with an
expectedRootHash supplied returns signatureVerified=true,
identityVerified=false, valid=false, with an "Identity Mismatch" message. -/
theorem c2_verifyNative_identity_mismatch
    (h : Bytes → Bytes) (edv : Bytes → Bytes → Bytes → Bool)
    (response : OpenSealResponse) (os : OpensealMeta) (r : JValue)
    (wax rh calculatedAHash : String) (sigBytes pubBytes : Bytes)
    (hos : response.openseal = some os)
    (hres : response.result = some r)
    (hrt : jFalsy r = false)
    (hsig : os.signature.isEmpty = false)
    (hpk : os.pub_key.isEmpty = false)
    (hah : os.a_hash.isEmpty = false)
    (hbh : os.b_hash.isEmpty = false)
    (hdecS : hexToBytes os.signature = .ok sigBytes)
    (hdecP : hexToBytes os.pub_key = .ok pubBytes)
    (hverify : edv sigBytes
        (utf8Bytes (wax ++ os.a_hash ++ os.b_hash ++ bytesToHex (h (utf8Bytes (serializeResult r)))))
        pubBytes = true)
    (hrh : rh.isEmpty = false)
    (hcomp : computeAHash h rh wax = .ok calculatedAHash)
    (hne : calculatedAHash ≠ os.a_hash) :
    verifyNative h edv response wax (some rh) =
      ⟨false, true, false,
        "Identity Mismatch: Code execution identity does not match expected root hash (Native)."⟩
      ∧ ("Identity Mismatch").data.isPrefixOf
        ("Identity Mismatch: Code execution identity does not match expected root hash (Native).").data
        = true := by
  refine ⟨?_, by decide⟩
  unfold verifyNative verifyNativeCore
  rw [hos, hres]
  simp [hrt, hsig, hpk, hah, hbh, hdecS, hdecP, hverify, hrh, hcomp, hne]

/-- Witness for C2 at a concrete envelope: reported a_hash "ff" while the
recomputed blinded hash is "00". -/
theorem c2_verifyNative_identity_mismatch_witness :
    verifyNative (fun _ => [0]) (fun _ _ _ => true)
      ⟨some (JValue.jstr "x"), some ⟨"aa", "bb", "ff", "ee"⟩⟩ "w" (some "cd")
      = ⟨false, true, false,
        "Identity Mismatch: Code execution identity does not match expected root hash (Native)."⟩ :=
  (c2_verifyNative_identity_mismatch (fun _ => [0]) (fun _ _ _ => true)
    ⟨some (JValue.jstr "x"), some ⟨"aa", "bb", "ff", "ee"⟩⟩ ⟨"aa", "bb", "ff", "ee"⟩
    (JValue.jstr "x") "w" "cd" "00" [170] [187]
    rfl rfl rfl rfl rfl rfl rfl rfl rfl rfl rfl rfl (by decide)).1

/-- C6: computeAHash is deterministic (it is a pure function: any two
evaluations at the same pair agree), and on well-formed root-hash hex its
output is hex(Hash("OPENSEAL_BLINDED_IDENTITY" || rootHashBytes || waxBytes)).
On malformed hex it deterministically raises instead of producing output. -/
theorem c6_computeAHash_deterministic_formula
    (h : Bytes → Bytes) (rootHashHex wax : String) (rootBytes : Bytes)
    (hdec : hexToBytes rootHashHex = .ok rootBytes) :
    (∀ out1 out2 : Except String String,
        computeAHash h rootHashHex wax = out1 → computeAHash h rootHashHex wax = out2 →
        out1 = out2)
    ∧ computeAHash h rootHashHex wax =
        .ok (bytesToHex (h (utf8Bytes "OPENSEAL_BLINDED_IDENTITY" ++ rootBytes ++ utf8Bytes wax))) := by
  constructor
  · intro out1 out2 h1 h2
    rw [← h1, ← h2]
  · unfold computeAHash
    rw [hdec]
    rfl

/-- Witness for C6 at a concrete root hash and nonce. -/
theorem c6_computeAHash_deterministic_formula_witness :
    computeAHash (fun bs => bs) "cd" "w"
      = .ok (bytesToHex (utf8Bytes "OPENSEAL_BLINDED_IDENTITY" ++ [205] ++ utf8Bytes "w")) :=
  (c6_computeAHash_deterministic_formula (fun bs => bs) "cd" "w" [205] rfl).2

/-- C7 counterexample: an envelope with a complete openseal object but a
missing result yields the message "Missing openseal or result fields", not
"Incomplete openseal metadata" as the claim states. -/
theorem c7_counterexample_missing_result_message :
    verifyNative (fun _ => [0]) (fun _ _ _ => true)
      ⟨none, some ⟨"aa", "bb", "cc", "dd"⟩⟩ "w" none
      = ⟨false, false, false, "Missing openseal or result fields"⟩
    ∧ "Missing openseal or result fields" ≠ "Incomplete openseal metadata" :=
  ⟨rfl, by decide⟩

/-- C7 amended: a missing openseal object or a missing/falsy result yields
valid=false, signatureVerified=false, identityVerified=false with message
"Missing openseal or result fields"; a present openseal and truthy result
with any of the four fields missing/empty yields the same flags with
message "Incomplete openseal metadata".  Both hold for every hash and
signature function, so no hash or signature computation influences the
outcome. -/
theorem c7_amended_missing_field_messages
    (h : Bytes → Bytes) (edv : Bytes → Bytes → Bytes → Bool)
    (response : OpenSealResponse) (wax : String) (root : Option String) :
    ((response.openseal = none ∨ response.result = none ∨
        (∃ r, response.result = some r ∧ jFalsy r = true)) →
      verifyNative h edv response wax root =
        ⟨false, false, false, "Missing openseal or result fields"⟩)
    ∧ (∀ os r, response.openseal = some os → response.result = some r → jFalsy r = false →
        (os.signature.isEmpty || os.pub_key.isEmpty || os.a_hash.isEmpty || os.b_hash.isEmpty) = true →
      verifyNative h edv response wax root =
        ⟨false, false, false, "Incomplete openseal metadata"⟩) := by
  constructor
  · intro hcase
    rcases hcase with h1 | h2 | ⟨r, hr, hf⟩
    · cases hres : response.result <;>
        simp [verifyNative, verifyNativeCore, h1, hres]
    · cases hos : response.openseal <;>
        simp [verifyNative, verifyNativeCore, h2, hos]
    · cases hos : response.openseal with
      | none => simp [verifyNative, verifyNativeCore, hos, hr]
      | some os => simp [verifyNative, verifyNativeCore, hos, hr, hf]
  · intro os r hos hr hrt hempty
    unfold verifyNative verifyNativeCore
    rw [hos, hr]
    simp [hrt, hempty]

/-- Witness for C7 amended: empty signature field. -/
theorem c7_amended_missing_field_messages_witness :
    verifyNative (fun _ => [0]) (fun _ _ _ => true)
      ⟨some (JValue.jstr "x"), some ⟨"", "bb", "cc", "dd"⟩⟩ "w" none
      = ⟨false, false, false, "Incomplete openseal metadata"⟩ :=
  (c7_amended_missing_field_messages (fun _ => [0]) (fun _ _ _ => true)
    ⟨some (JValue.jstr "x"), some ⟨"", "bb", "cc", "dd"⟩⟩ "w" none).2
    ⟨"", "bb", "cc", "dd"⟩ (JValue.jstr "x") rfl rfl rfl rfl

/-- C10: verifyNative is total by construction (it is a Lean function into
VerificationResult), and every internal exception of the native protocol —
including malformed hex in signature, pub_key, or the expected root hash —
is caught and returned as valid=false, signatureVerified=false,
identityVerified=false with a descriptive message. -/
theorem c10_verifyNative_catches_errors
    (h : Bytes → Bytes) (edv : Bytes → Bytes → Bytes → Bool)
    (response : OpenSealResponse) (wax : String) (root : Option String) (e : String)
    (herr : verifyNativeCore h edv response wax root = .error e) :
    verifyNative h edv response wax root =
      ⟨false, false, false, "Native Verification Error: " ++ e⟩ := by
  unfold verifyNative
  rw [herr]

/-- Witness for C10: malformed hex in the signature field is caught and
reported, never thrown. -/
theorem c10_verifyNative_catches_errors_witness :
    verifyNative (fun _ => [0]) (fun _ _ _ => true)
      ⟨some (JValue.jstr "x"), some ⟨"zz", "aa", "bb", "cc"⟩⟩ "w" none
      = ⟨false, false, false,
          "Native Verification Error: hex string expected, got non-hex character"⟩ :=
  c10_verifyNative_catches_errors (fun _ => [0]) (fun _ _ _ => true)
    ⟨some (JValue.jstr "x"), some ⟨"zz", "aa", "bb", "cc"⟩⟩ "w" none
    "hex string expected, got non-hex character" rfl

/-! ## Theorems about ProxyService.forwardRequest -/

/-- C8: when the body parses as JSON but is not the openseal/result wrapper,
the service has a configured root hash (and wax), and no X-OpenSeal-Seal
response header is present, forwardRequest still returns the parsed body as
data with openseal verified=false and the "Missing Seal" message — it does
not raise; a failed or skipped verification never blocks the response
(forwardResult is a total function into ProxyResultM). -/
theorem c8_missing_seal_is_soft
    (parse : String → Except String JValue)
    (osVerify : JValue → String → Option String → VerificationResult)
    (status : Nat) (responseText : String) (ct : Option String)
    (rh w : String) (lat : Nat) (pb : JValue)
    (hparse : parse responseText = .ok pb)
    (hwrap : isBodyWrapper pb = false)
    (hrh : rh.isEmpty = false)
    (hw : w.isEmpty = false) :
    forwardResult parse osVerify status responseText none ct (some rh) (some w) lat =
      { status := status
        data := pb
        telemetry :=
          { latencyMs := lat
            responseSizeBytes := jsLength responseText
            contentType := ct.getD "unknown"
            integrityCheck := true }
        openseal := some (false, "Missing Seal (Header/Body)") }
    ∧ ("Missing Seal").data.isPrefixOf ("Missing Seal (Header/Body)").data = true := by
  refine ⟨?_, by decide⟩
  unfold forwardResult
  rw [hparse]
  simp [hwrap, rootWaxPresent, hrh, hw]

/-- Witness for C8: a JSON array body, root hash "ab", wax "cd", no seal
header. -/
theorem c8_missing_seal_is_soft_witness :
    forwardResult
      (fun s => if s == "[1]" then .ok (JValue.jarr [JValue.jnum 1]) else .error "e")
      (fun _ _ _ => ⟨false, false, false, ""⟩)
      200 "[1]" none none (some "ab") (some "cd") 0 =
      { status := 200
        data := JValue.jarr [JValue.jnum 1]
        telemetry :=
          { latencyMs := 0
            responseSizeBytes := jsLength "[1]"
            contentType := "unknown"
            integrityCheck := true }
        openseal := some (false, "Missing Seal (Header/Body)") } :=
  (c8_missing_seal_is_soft
    (fun s => if s == "[1]" then .ok (JValue.jarr [JValue.jnum 1]) else .error "e")
    (fun _ _ _ => ⟨false, false, false, ""⟩)
    200 "[1]" none "ab" "cd" 0 (JValue.jarr [JValue.jnum 1])
    rfl rfl rfl rfl).1

/-- C9 counterexample: for the one-character body "é" the code reports
responseSizeBytes = 1 (the JS string length, in UTF-16 code units) while
the UTF-8 byte length of the body is 2, so responseSizeBytes does not equal
the byte length of the response body. -/
theorem c9_counterexample_size_not_bytes :
    (forwardResult (fun _ => .error "e") (fun _ _ _ => ⟨false, false, false, ""⟩)
        200 "é" none none none none 0).telemetry.responseSizeBytes = 1
    ∧ (utf8Bytes "é").length = 2
    ∧ (1 : Nat) ≠ 2 :=
  ⟨rfl, rfl, by decide⟩

/-- C9 amended: telemetry.responseSizeBytes equals the JavaScript string
length of the decoded body (UTF-16 code units — equal to the byte length
only when the body is ASCII), and telemetry.integrityCheck is true exactly
when the body parsed as valid JSON. -/
theorem c9_amended_telemetry
    (parse : String → Except String JValue)
    (osVerify : JValue → String → Option String → VerificationResult)
    (status : Nat) (responseText : String) (sealH ct : Option String)
    (root wax : Option String) (lat : Nat) :
    (forwardResult parse osVerify status responseText sealH ct root wax lat).telemetry.responseSizeBytes
        = jsLength responseText
    ∧ ((forwardResult parse osVerify status responseText sealH ct root wax lat).telemetry.integrityCheck
        = true ↔ ∃ pb, parse responseText = .ok pb) := by
  constructor
  · rfl
  · cases hp : parse responseText with
    | ok pb =>
      apply iff_of_true ?_ ⟨pb, rfl⟩
      unfold forwardResult
      rw [hp]
      by_cases hw : isBodyWrapper pb
      · simp only [hw, if_true]
        cases hres : jGetField pb "result" <;> simp [hres]
      · simp [hw]
    | error e =>
      apply iff_of_false
      · unfold forwardResult
        rw [hp]
        simp
      · rintro ⟨pb, hpb⟩
        exact Except.noConfusion hpb

/-- Witness for C9 amended at a concrete body. -/
theorem c9_amended_telemetry_witness :
    (forwardResult (fun _ => .error "e") (fun _ _ _ => ⟨false, false, false, ""⟩)
        200 "ab" none none none none 0).telemetry.responseSizeBytes = jsLength "ab" :=
  (c9_amended_telemetry (fun _ => .error "e") (fun _ _ _ => ⟨false, false, false, ""⟩)
    200 "ab" none none none none 0).1

/-! ## Header sanitization lemmas -/

theorem mem_setHeader {hs : List (String × String)} {k v : String} {p : String × String}
    (hp : p ∈ setHeader hs k v) : p = (k, v) ∨ p ∈ hs := by
  unfold setHeader at hp
  by_cases hany : (hs.any (fun q => q.1 == k)) = true
  · rw [if_pos hany] at hp
    rcases List.mem_map.mp hp with ⟨q, hq, hfq⟩
    by_cases hqk : (q.1 == k) = true
    · rw [if_pos hqk] at hfq
      exact Or.inl hfq.symm
    · rw [if_neg hqk] at hfq
      exact Or.inr (hfq ▸ hq)
  · rw [if_neg hany] at hp
    rcases List.mem_append.mp hp with h1 | h1
    · exact Or.inr h1
    · exact Or.inl (List.mem_singleton.mp h1)

theorem pair_mem_setHeader_self (hs : List (String × String)) (k v : String) :
    (k, v) ∈ setHeader hs k v := by
  unfold setHeader
  by_cases hany : (hs.any (fun q => q.1 == k)) = true
  · rw [if_pos hany]
    rcases List.any_eq_true.mp hany with ⟨q, hq, hqk⟩
    exact List.mem_map.mpr ⟨q, hq, by rw [if_pos hqk]⟩
  · rw [if_neg hany]
    exact List.mem_append.mpr (Or.inr (List.mem_singleton.mpr rfl))

theorem mem_setHeader_of_ne {hs : List (String × String)} {p : String × String} {k v : String}
    (hp : p ∈ hs) (hne : p.1 ≠ k) : p ∈ setHeader hs k v := by
  unfold setHeader
  by_cases hany : (hs.any (fun q => q.1 == k)) = true
  · rw [if_pos hany]
    refine List.mem_map.mpr ⟨p, hp, ?_⟩
    rw [if_neg (by simpa using hne)]
  · rw [if_neg hany]
    exact List.mem_append.mpr (Or.inl hp)

theorem key_mem_setHeader {hs : List (String × String)} {k0 k v : String}
    (hk : k0 ∈ hs.map Prod.fst) : k0 ∈ (setHeader hs k v).map Prod.fst := by
  unfold setHeader
  by_cases hany : (hs.any (fun q => q.1 == k)) = true
  · rw [if_pos hany]
    rcases List.mem_map.mp hk with ⟨q, hq, hfst⟩
    by_cases hqk : (q.1 == k) = true
    · refine List.mem_map.mpr ⟨(k, v), List.mem_map.mpr ⟨q, hq, by rw [if_pos hqk]⟩, ?_⟩
      have hq1 : q.1 = k := by simpa using hqk
      rw [← hfst, hq1]
    · exact List.mem_map.mpr ⟨q, List.mem_map.mpr ⟨q, hq, by rw [if_neg hqk]⟩, hfst⟩
  · rw [if_neg hany, List.map_append]
    exact List.mem_append.mpr (Or.inl hk)

theorem filterStep_keys_mono {acc : List (String × String)} {kv : String × String} {k0 : String}
    (hk : k0 ∈ acc.map Prod.fst) : k0 ∈ (filterStep acc kv).map Prod.fst := by
  unfold filterStep
  by_cases hb : (blockedHeaderName (strToLower kv.1)) = true
  · rw [if_pos hb]; exact hk
  · rw [if_neg hb]
    by_cases hf : (SAFE_HEADERS.contains (strToLower kv.1)) = true
    · rw [if_pos hf]; exact key_mem_setHeader hk
    · rw [if_neg hf]; exact hk

theorem foldl_filterStep_keys_mono :
    ∀ (l acc : List (String × String)) (k0 : String),
    k0 ∈ acc.map Prod.fst → k0 ∈ (List.foldl filterStep acc l).map Prod.fst := by
  intro l
  induction l with
  | nil => intro acc k0 hk; exact hk
  | cons hd tl ih =>
    intro acc k0 hk
    exact ih (filterStep acc hd) k0 (filterStep_keys_mono hk)

theorem safe_not_blocked : ∀ s ∈ SAFE_HEADERS, blockedHeaderName s = false := by decide

theorem foldl_filterStep_sound :
    ∀ (l acc : List (String × String)),
    (∀ p ∈ acc, strToLower p.1 ∈ SAFE_HEADERS) →
    ∀ p ∈ List.foldl filterStep acc l, strToLower p.1 ∈ SAFE_HEADERS := by
  intro l
  induction l with
  | nil => intro acc hacc; exact hacc
  | cons hd tl ih =>
    intro acc hacc
    apply ih
    intro q hq
    unfold filterStep at hq
    by_cases hb : (blockedHeaderName (strToLower hd.1)) = true
    · rw [if_pos hb] at hq; exact hacc q hq
    · rw [if_neg hb] at hq
      by_cases hf : (SAFE_HEADERS.contains (strToLower hd.1)) = true
      · rw [if_pos hf] at hq
        rcases mem_setHeader hq with heq | hq2
        · rw [heq]
          exact List.elem_iff.mp hf
        · exact hacc q hq2
      · rw [if_neg hf] at hq; exact hacc q hq

theorem filterHeaders_sound {inbound : List (String × String)} {p : String × String}
    (hp : p ∈ filterHeaders inbound) : strToLower p.1 ∈ SAFE_HEADERS :=
  foldl_filterStep_sound inbound []
    (fun q hq => absurd hq (List.not_mem_nil q)) p hp

theorem filterStep_adds_safe {acc : List (String × String)} {k v : String}
    (hsafe : strToLower k ∈ SAFE_HEADERS) :
    k ∈ (filterStep acc (k, v)).map Prod.fst := by
  have hb : blockedHeaderName (strToLower k) = false := safe_not_blocked _ hsafe
  have hc : (SAFE_HEADERS.contains (strToLower k)) = true := List.elem_iff.mpr hsafe
  unfold filterStep
  simp only [hb, hc, Bool.false_eq_true, if_false, if_true]
  exact List.mem_map.mpr ⟨(k, v), pair_mem_setHeader_self acc k v, rfl⟩

theorem filterHeaders_complete :
    ∀ (l acc : List (String × String)) (k v : String),
    (k, v) ∈ l → strToLower k ∈ SAFE_HEADERS →
    k ∈ (List.foldl filterStep acc l).map Prod.fst := by
  intro l
  induction l with
  | nil => intro acc k v h _; exact absurd h (List.not_mem_nil _)
  | cons hd tl ih =>
    intro acc k v hmem hsafe
    rcases List.mem_cons.mp hmem with heq | htl
    · apply foldl_filterStep_keys_mono tl
      rw [← heq]
      exact filterStep_adds_safe hsafe
    · exact ih (filterStep acc hd) k v htl hsafe

/-- The header names added by the gateway itself in `forwardRequest`. -/
def gatewayHeaderKeys : List String :=
  ["x-forwarded-by", "x-service-name", "x-highstation-time",
   "x-highstation-signature", "X-OpenSeal-Wax"]

theorem setHeader_pred_preserved {P : String × String → Prop}
    {hs : List (String × String)} {k v : String}
    (hhs : ∀ q ∈ hs, P q) (hkv : P (k, v)) : ∀ q ∈ setHeader hs k v, P q := by
  intro q hq
  rcases mem_setHeader hq with heq | hq2
  · rw [heq]; exact hkv
  · exact hhs q hq2

theorem mem_buildForwardHeaders {inbound : List (String × String)} {n ts : String}
    {sig wax : Option String} {p : String × String}
    (hp : p ∈ buildForwardHeaders inbound n ts sig wax) :
    strToLower p.1 ∈ SAFE_HEADERS ∨ p.1 ∈ gatewayHeaderKeys := by
  have base : ∀ q ∈ filterHeaders inbound,
      strToLower q.1 ∈ SAFE_HEADERS ∨ q.1 ∈ gatewayHeaderKeys :=
    fun q hq => Or.inl (filterHeaders_sound hq)
  have s1 := setHeader_pred_preserved (k := "x-forwarded-by") (v := "highstation")
    base (Or.inr (by decide))
  have s2 := setHeader_pred_preserved (k := "x-service-name") (v := n) s1
    (Or.inr (show "x-service-name" ∈ gatewayHeaderKeys by decide))
  have s3 := setHeader_pred_preserved (k := "x-highstation-time") (v := ts) s2
    (Or.inr (show "x-highstation-time" ∈ gatewayHeaderKeys by decide))
  revert hp
  unfold buildForwardHeaders
  cases sig with
  | none =>
    cases wax with
    | none => exact fun hp => s3 p hp
    | some w =>
      exact fun hp =>
        setHeader_pred_preserved (k := "X-OpenSeal-Wax") (v := w) s3
          (Or.inr (show "X-OpenSeal-Wax" ∈ gatewayHeaderKeys by decide)) p hp
  | some s =>
    have s4 := setHeader_pred_preserved (k := "x-highstation-signature") (v := s) s3
      (Or.inr (show "x-highstation-signature" ∈ gatewayHeaderKeys by decide))
    cases wax with
    | none => exact fun hp => s4 p hp
    | some w =>
      exact fun hp =>
        setHeader_pred_preserved (k := "X-OpenSeal-Wax") (v := w) s4
          (Or.inr (show "X-OpenSeal-Wax" ∈ gatewayHeaderKeys by decide)) p hp

theorem safe_name_not_forbidden :
    ∀ s ∈ SAFE_HEADERS,
      (s == "host") = false ∧ (s == "connection") = false ∧
      strStartsWith s "x-real-ip" = false ∧ strStartsWith s "x-original" = false ∧
      strStartsWith s "x-rewrite" = false := by decide

theorem gateway_name_not_forbidden :
    ∀ s ∈ gatewayHeaderKeys,
      (strToLower s == "host") = false ∧ (strToLower s == "connection") = false ∧
      strStartsWith (strToLower s) "x-real-ip" = false ∧
      strStartsWith (strToLower s) "x-original" = false ∧
      strStartsWith (strToLower s) "x-rewrite" = false := by decide

/-- C5 counterexample: the outbound header set always contains
x-forwarded-by, whose name starts with "x-forwarded" — so "contains no
header starting with x-forwarded" is false of the set forwarded upstream. -/
theorem c5_counterexample_xforwardedby_present :
    ("x-forwarded-by", "highstation") ∈ buildForwardHeaders [] "svc" "0" none none
    ∧ strStartsWith (strToLower "x-forwarded-by") "x-forwarded" = true := by
  exact ⟨by decide, by decide⟩

/-- C5 amended: among the headers copied from the inbound request, exactly
those whose lowercased name is in the fixed allow-list survive (soundness
and completeness below); the gateway then adds its own metadata headers
(always x-forwarded-by="highstation" and x-service-name, plus the
timestamp, and the optional signature and wax headers), and no outbound
header — inbound-copied or gateway-added — is named host or connection or
starts with x-real-ip, x-original, or x-rewrite; the only outbound header
with an x-forwarded prefix is the gateway marker x-forwarded-by itself. -/
theorem c5_amended_header_sanitization
    (inbound : List (String × String)) (n ts : String) (sig wax : Option String) :
    (∀ p ∈ filterHeaders inbound, strToLower p.1 ∈ SAFE_HEADERS)
    ∧ (∀ k v, (k, v) ∈ inbound → strToLower k ∈ SAFE_HEADERS →
        k ∈ (filterHeaders inbound).map Prod.fst)
    ∧ (∀ p ∈ buildForwardHeaders inbound n ts sig wax,
        strToLower p.1 ∈ SAFE_HEADERS ∨ p.1 ∈ gatewayHeaderKeys)
    ∧ ("x-forwarded-by", "highstation") ∈ buildForwardHeaders inbound n ts sig wax
    ∧ ("x-service-name", n) ∈ buildForwardHeaders inbound n ts sig wax
    ∧ (∀ p ∈ buildForwardHeaders inbound n ts sig wax,
        (strToLower p.1 == "host") = false ∧ (strToLower p.1 == "connection") = false ∧
        strStartsWith (strToLower p.1) "x-real-ip" = false ∧
        strStartsWith (strToLower p.1) "x-original" = false ∧
        strStartsWith (strToLower p.1) "x-rewrite" = false) := by
  refine ⟨fun p hp => filterHeaders_sound hp,
    fun k v hkv hsafe => filterHeaders_complete inbound [] k v hkv hsafe,
    fun p hp => mem_buildForwardHeaders hp, ?_, ?_, ?_⟩
  · -- x-forwarded-by survives all later setHeader calls (distinct keys)
    have h1 : ("x-forwarded-by", "highstation") ∈
        setHeader (filterHeaders inbound) "x-forwarded-by" "highstation" :=
      pair_mem_setHeader_self _ _ _
    have h2 := mem_setHeader_of_ne (k := "x-service-name") (v := n) h1
      (show "x-forwarded-by" ≠ "x-service-name" by decide)
    have h3 := mem_setHeader_of_ne (k := "x-highstation-time") (v := ts) h2
      (show "x-forwarded-by" ≠ "x-highstation-time" by decide)
    unfold buildForwardHeaders
    cases sig with
    | none =>
      cases wax with
      | none => exact h3
      | some w =>
        exact mem_setHeader_of_ne (k := "X-OpenSeal-Wax") (v := w) h3
          (show "x-forwarded-by" ≠ "X-OpenSeal-Wax" by decide)
    | some s =>
      have h4 := mem_setHeader_of_ne (k := "x-highstation-signature") (v := s) h3
        (show "x-forwarded-by" ≠ "x-highstation-signature" by decide)
      cases wax with
      | none => exact h4
      | some w =>
        exact mem_setHeader_of_ne (k := "X-OpenSeal-Wax") (v := w) h4
          (show "x-forwarded-by" ≠ "X-OpenSeal-Wax" by decide)
  · have h2 : ("x-service-name", n) ∈
        setHeader (setHeader (filterHeaders inbound) "x-forwarded-by" "highstation")
          "x-service-name" n :=
      pair_mem_setHeader_self _ _ _
    have h3 := mem_setHeader_of_ne (k := "x-highstation-time") (v := ts) h2
      (show "x-service-name" ≠ "x-highstation-time" by decide)
    unfold buildForwardHeaders
    cases sig with
    | none =>
      cases wax with
      | none => exact h3
      | some w =>
        exact mem_setHeader_of_ne (k := "X-OpenSeal-Wax") (v := w) h3
          (show "x-service-name" ≠ "X-OpenSeal-Wax" by decide)
    | some s =>
      have h4 := mem_setHeader_of_ne (k := "x-highstation-signature") (v := s) h3
        (show "x-service-name" ≠ "x-highstation-signature" by decide)
      cases wax with
      | none => exact h4
      | some w =>
        exact mem_setHeader_of_ne (k := "X-OpenSeal-Wax") (v := w) h4
          (show "x-service-name" ≠ "X-OpenSeal-Wax" by decide)
  · intro p hp
    rcases mem_buildForwardHeaders hp with hsafe | hgw
    · exact safe_name_not_forbidden _ hsafe
    · exact gateway_name_not_forbidden _ hgw

/-- Witness for C5 at a concrete inbound header set containing
X-Forwarded-For, Host, X-Real-IP, Accept, and Content-Type. -/
theorem c5_amended_header_sanitization_witness :
    "Accept" ∈ (filterHeaders
      [("X-Forwarded-For", "1.2.3.4"), ("Host", "evil"), ("X-Real-IP", "1.1.1.1"),
       ("Accept", "application/json"), ("Content-Type", "application/json")]).map Prod.fst
    ∧ ("x-forwarded-by", "highstation") ∈ buildForwardHeaders
      [("X-Forwarded-For", "1.2.3.4"), ("Host", "evil"), ("X-Real-IP", "1.1.1.1"),
       ("Accept", "application/json"), ("Content-Type", "application/json")] "svc" "0" none none :=
  ⟨(c5_amended_header_sanitization
      [("X-Forwarded-For", "1.2.3.4"), ("Host", "evil"), ("X-Real-IP", "1.1.1.1"),
       ("Accept", "application/json"), ("Content-Type", "application/json")] "svc" "0" none none).2.1
      "Accept" "application/json" (by decide) (by decide),
   (c5_amended_header_sanitization
      [("X-Forwarded-For", "1.2.3.4"), ("Host", "evil"), ("X-Real-IP", "1.1.1.1"),
       ("Accept", "application/json"), ("Content-Type", "application/json")] "svc" "0" none none).2.2.2.1⟩

/-! ## Theorems about the domain resolver -/

/-- C4 counterexample: the legacy /gatekeeper/<slug> lookup is filtered to
status = verified, not "regardless of verification status": a service with
slug "foo" and status "pending" is NOT resolved for /gatekeeper/foo/bar
(the request falls through), while the same service with status "verified"
is resolved with the prefix stripped. -/
theorem c4_counterexample_pending_slug_not_resolved :
    domainResolver [⟨"foo", none, "pending"⟩] "example.org" "/gatekeeper/foo/bar"
      = ResolveOutcome.passThrough
    ∧ domainResolver [⟨"foo", none, "verified"⟩] "example.org" "/gatekeeper/foo/bar"
      = ResolveOutcome.resolved ⟨"foo", none, "verified"⟩ "legacy_path" (some "/bar") :=
  ⟨rfl, rfl⟩

/-- C4 amended: for every request whose path matches /gatekeeper/<slug>/...
(excluding slug "resource" and paths containing "/info"), when the earlier
branches do not match, the resolver looks up the Service by slug *filtered
to status = verified* (like the other branches), and strips the
/gatekeeper/<slug> prefix from the path before forwarding, defaulting to
"/" if the remainder is empty. -/
theorem c4_amended_legacy_path_verified_only
    (reg : List Service) (host path slug : String) (svc : Service)
    (hint : isInternalPath path = false)
    (hcd : queryCustomDomain reg (hostToHostname host) = none)
    (hsd : subdomainLookup reg (hostToHostname host) = none)
    (hleg : legacySlug path = some slug)
    (hexc : (slug == "resource" || strContains path "/info") = false)
    (hsvc : queryVerifiedSlug reg slug = some svc) :
    domainResolver reg host path =
      ResolveOutcome.resolved svc "legacy_path"
        (some (if (strDrop path (12 + slug.length)).isEmpty then "/"
               else strDrop path (12 + slug.length))) := by
  unfold domainResolver
  simp [hint, hcd, hsd, hleg, hexc, hsvc]

/-- Witness for C4 amended: a verified service resolved via the legacy
path, with stripping, and with the "/" default when the remainder is
empty. -/
theorem c4_amended_legacy_path_verified_only_witness :
    domainResolver [⟨"foo", none, "verified"⟩] "example.org" "/gatekeeper/foo/bar"
      = ResolveOutcome.resolved ⟨"foo", none, "verified"⟩ "legacy_path" (some "/bar")
    ∧ domainResolver [⟨"foo", none, "verified"⟩] "example.org" "/gatekeeper/foo"
      = ResolveOutcome.resolved ⟨"foo", none, "verified"⟩ "legacy_path" (some "/") :=
  ⟨c4_amended_legacy_path_verified_only
      [⟨"foo", none, "verified"⟩] "example.org" "/gatekeeper/foo/bar" "foo"
      ⟨"foo", none, "verified"⟩ rfl rfl rfl rfl rfl rfl,
   c4_amended_legacy_path_verified_only
      [⟨"foo", none, "verified"⟩] "example.org" "/gatekeeper/foo" "foo"
      ⟨"foo", none, "verified"⟩ rfl rfl rfl rfl rfl rfl⟩

/-! ## Theorems about the outbound probe calls -/

/-- C3: evaluation of the outbound-call construction at a concrete input.
The connection-test probes all dial the original hostname (example.com),
not the resolved pinned IP, and set no Host header — only the
domain-ownership verification call dials the pinned IP with an explicit
Host header.  This contradicts the claim that every outbound call to a
user-supplied URL dials the pinned IP with a Host override; the
test-connection handler checks the resolved IP against the blocklist and
then discards it for the connection (a time-of-check/time-of-use gap the
verify handler explicitly avoids). -/
theorem c3_testConnection_dials_hostname_not_pinned_ip :
    testConnectionProbeRequests ⟨"http:", "example.com", "", "/"⟩ none =
      [⟨"example.com", "", "/.openseal/identity",
        [("Accept", "application/json"), ("User-Agent", "highstation-probe/1.0")]⟩,
       ⟨"example.com", "", "/",
        [("Accept", "application/json"), ("User-Agent", "highstation-probe/1.0")]⟩,
       ⟨"example.com", "", "/health",
        [("Accept", "application/json"), ("User-Agent", "highstation-probe/1.0")]⟩,
       ⟨"example.com", "", "/api/health",
        [("Accept", "application/json"), ("User-Agent", "highstation-probe/1.0")]⟩]
    ∧ domainVerifyRequest ⟨"http:", "example.com", "", "/"⟩ "93.184.216.34" =
      ⟨"93.184.216.34", "", "/.well-known/x402-verify.txt",
       [("User-Agent", "highstation-bot/1.0"), ("Host", "example.com")]⟩ :=
  ⟨rfl, rfl⟩

end HighPass
